import Mathlib

/-!
Shallow embedding of the freqtrade trade decision engine
(`freqtrade/analyze.py` and `freqtrade/freqtradebot.py`).

Prices, rates, profits and timestamps are modelled as exact rationals
(`ℚ`); timestamps are seconds since epoch, as produced by Python's
`datetime.timestamp()`.  Python dictionaries that are iterated in
insertion order (`minimal_roi`) are modelled as association lists.
External collaborators (exchange, persistence queries) are modelled by
passing their answers as explicit arguments.
-/

namespace Freqtrade

/-- Ticker data as returned by `exchange.get_ticker`. -/
structure Ticker where
  bid : ℚ
  ask : ℚ
  last : ℚ
  deriving Repr, DecidableEq

/-- Fee attribution embedded in an order or a fill: the `{currency, cost}`
sub-dictionary.  `Option FeeInfo` models both a missing `fee` key, a falsy
`fee` value and a dict lacking the `currency`/`cost` keys (all of which the
source treats as unusable). -/
structure FeeInfo where
  currency : String
  cost : ℚ
  deriving Repr, DecidableEq

/-- Read-only view of an exchange order dict as consumed by
`get_real_amount` and the timeout handlers. -/
structure Order where
  amount : ℚ
  remaining : ℚ
  status : String
  fee : Option FeeInfo
  deriving Repr, DecidableEq

/-- One fill record as returned by `exchange.get_trades_for_order`. -/
structure Fill where
  amount : ℚ
  fee : Option FeeInfo
  deriving Repr, DecidableEq

/-- The `Trade` persistence record (fields used by the decision engine). -/
structure Trade where
  pair : String
  stake_amount : ℚ
  amount : ℚ
  open_rate : ℚ
  open_date : ℚ
  fee_open : ℚ
  stop_loss : Option ℚ
  initial_stop_loss : Option ℚ
  open_order_id : Option Nat
  close_rate_requested : Option ℚ
  is_open : Bool
  deriving Repr, DecidableEq

/-- The strategy interface consumed by `Analyze`: a flat stoploss fraction
(a negative number such as `-5/100`) and the `minimal_roi` table, an
insertion-ordered mapping duration-minutes ↦ required-profit. -/
structure Strategy where
  stoploss : ℚ
  minimal_roi : List (ℚ × ℚ)
  deriving Repr, DecidableEq

/-- The configuration keys read on the sell path.
`trailing_enabled` is the truthiness of `config['trailing_stop']`;
`trailing_positive` is `some p` exactly when that value is a dict
containing a `positive` key `p`. -/
structure BotConfig where
  trailing_enabled : Bool
  trailing_positive : Option ℚ
  sell_profit_only : Bool
  use_sell_signal : Bool
  sell_fullfilled_at_roi : Bool
  ask_use_book_order : Bool
  book_order_min : Nat
  book_order_max : Nat
  deriving Repr, DecidableEq

/-- The `bid_strategy` configuration section read by `get_target_bid`. -/
structure BidStrategyCfg where
  ask_last_balance : ℚ
  use_book_order : Bool
  book_order_top : Nat
  percent_from_top : ℚ
  deriving Repr, DecidableEq

/-- `Analyze.trunc_num` (analyze.py:253-255):
`math.floor(f * 10 ** n) / 10 ** n`. -/
def trunc_num (f : ℚ) (n : ℕ) : ℚ :=
  ((⌊f * 10 ^ n⌋ : ℤ) : ℚ) / 10 ^ n

/-- Modelled from the spec: `persistence.Trade.calc_profit_percent` is not
under `src/`.  Spec §4.1 step 1: `current_profit = (current_rate -
open_rate)/open_rate` (the parenthetical fee adjustment is given no
formula by the spec and is elided; concrete claims supply profit values
directly). -/
def calc_profit_percent (t : Trade) (rate : ℚ) : ℚ :=
  (rate - t.open_rate) / t.open_rate

/-- Modelled from the spec: `persistence.Trade.calc_profit` is not under
`src/`.  The absolute profit of closing the position at `rate`; only its
sign relative to zero is consumed by the sell path. -/
def calc_profit (t : Trade) (rate : ℚ) : ℚ :=
  t.amount * (rate - t.open_rate)

/-- Modelled from the spec: `persistence.Trade.adjust_stop_loss` is not
under `src/`.  Spec §4.1 steps 2 and 4: the candidate stop-loss is the
stoploss fraction applied to the given rate; on first assignment it also
sets `initial_stop_loss` (spec §3: "initial stop-loss price (set
once)"); afterwards "the new stop-loss is accepted only if it is higher
(more favorable) than the current one". -/
def adjust_stop_loss (t : Trade) (initial_rate : ℚ) (stoploss : ℚ) : Trade :=
  let new_loss := initial_rate * (1 + stoploss)
  match t.stop_loss with
  | none => { t with stop_loss := some new_loss, initial_stop_loss := some new_loss }
  | some s => if s < new_loss then { t with stop_loss := some new_loss } else t

/-- The ROI-table walk of `Analyze.min_roi_reached` (analyze.py:238-244):
iterate `minimal_roi` in its defined order; if `time_diff <= duration`
return `False`, else if `current_profit > threshold` return `True`, else
continue; exhaustion returns `False`. -/
def min_roi_loop : List (ℚ × ℚ) → ℚ → ℚ → Bool
  | [], _, _ => false
  | (duration, threshold) :: rest, time_diff, current_profit =>
    if time_diff ≤ duration then false
    else if threshold < current_profit then true
    else min_roi_loop rest time_diff current_profit

/-- `Analyze.min_roi_reached` (analyze.py:195-244).  Returns the decision
together with the trade as mutated in place by the stop-loss
initialization and the trailing-stop ratchet.  `strategy.stoploss` is
modelled as always present (a `None` stoploss would fail inside
`adjust_stop_loss` on the very first evaluation, so the guard
`self.strategy.stoploss is not None` at line 207 is always true in any
run that reaches it); after the initialization branch `stop_loss` is
always `some`, so `getD 0` reads the stored value. -/
def min_roi_reached (cfg : BotConfig) (strat : Strategy) (trade : Trade)
    (current_rate : ℚ) (current_time : ℚ) : Bool × Trade :=
  let current_profit := calc_profit_percent trade current_rate
  let t1 := if trade.stop_loss = none then
      adjust_stop_loss trade trade.open_rate strat.stoploss
    else trade
  if current_rate ≤ t1.stop_loss.getD 0 then (true, t1)
  else
    let t2 :=
      if cfg.trailing_enabled then
        let stop_loss_value :=
          match cfg.trailing_positive with
          | some p => if 0 < current_profit then p else strat.stoploss
          | none => strat.stoploss
        adjust_stop_loss t1 current_rate stop_loss_value
      else t1
    let time_diff := (current_time - trade.open_date) / 60
    (min_roi_loop strat.minimal_roi time_diff current_profit, t2)

/-- `Analyze.should_sell` (analyze.py:172-193): ROI/stoploss check first,
then the experimental `sell_profit_only` suppression, then the
sell-signal check.  Returns the decision and the trade as mutated by
`min_roi_reached`. -/
def should_sell (cfg : BotConfig) (strat : Strategy) (trade : Trade)
    (rate : ℚ) (date : ℚ) (buy : Bool) (sell : Bool) : Bool × Trade :=
  let r := min_roi_reached cfg strat trade rate date
  if r.1 then (true, r.2)
  else if cfg.sell_profit_only = true ∧ calc_profit r.2 rate ≤ 0 then (false, r.2)
  else if sell = true ∧ buy = false ∧ cfg.use_sell_signal = true then (true, r.2)
  else (false, r.2)

/-- The loop of `Analyze.get_roi_rate` (analyze.py:257-269): return the
truncated ROI-based rate for the first table entry whose duration has
elapsed, otherwise the given `sell_rate`.  `2.1 * get_fee` is the exact
rational `21/10 * fee`. -/
def get_roi_rate_loop (open_rate : ℚ) (fee : ℚ) (sell_rate : ℚ) :
    List (ℚ × ℚ) → ℚ → ℚ
  | [], _ => sell_rate
  | (duration, threshold) :: rest, time_diff =>
    if duration < time_diff then
      trunc_num (open_rate * (1 + threshold) * (1 + 21 / 10 * fee)) 8
    else get_roi_rate_loop open_rate fee sell_rate rest time_diff

/-- `Analyze.get_roi_rate` (analyze.py:257-269); `fee` is the answer of
the external `get_fee(trade.pair)` call and `now` the current UTC
timestamp in seconds. -/
def get_roi_rate (strat : Strategy) (fee : ℚ) (trade : Trade)
    (sell_rate : ℚ) (now : ℚ) : ℚ :=
  get_roi_rate_loop trade.open_rate fee sell_rate strat.minimal_roi
    ((now - trade.open_date) / 60)

/-- Python `str.startswith` on Lean strings, via the underlying character
lists (`String.isPrefixOf` itself is opaque to the kernel). -/
def startswith (s : String) (p : String) : Bool :=
  p.data.isPrefixOf s.data

/-- `FreqtradeBot.get_target_bid` (freqtradebot.py:287-326).  `book_bids`
is the bid-price column of the order book answered by
`exchange.get_order_book`.  Note lines 313-315: the conditional
`used_rate = ticker_rate` assignment for a lower ticker rate is
immediately overwritten by the unconditional `used_rate = orderBook_rate`
at line 316, so in the book branch the order-book rate is always the one
kept; the embedding reproduces that behaviour. -/
def get_target_bid (cfg : BidStrategyCfg) (ticker : Ticker)
    (book_bids : List ℚ) : ℚ :=
  let ticker_rate :=
    if ticker.ask < ticker.last then ticker.ask
    else ticker.ask + cfg.ask_last_balance * (ticker.last - ticker.ask)
  let used_rate :=
    if cfg.use_book_order = true then
      book_bids.getD (cfg.book_order_top - 1) 0 + 1 / 100000000
    else ticker_rate
  if 0 < cfg.percent_from_top then
    trunc_num (used_rate - used_rate * cfg.percent_from_top) 8
  else used_rate

/-- The bid-price rule as the spec and claim C4 state it: the book branch
uses the more conservative (lower) of the order-book rate plus epsilon
and the ticker-derived rate.  Stated from the spec's words, for
comparison with `get_target_bid` as translated from the source. -/
def get_target_bid_claimed (cfg : BidStrategyCfg) (ticker : Ticker)
    (book_bids : List ℚ) : ℚ :=
  let ticker_rate :=
    if ticker.ask < ticker.last then ticker.ask
    else ticker.ask + cfg.ask_last_balance * (ticker.last - ticker.ask)
  let used_rate :=
    if cfg.use_book_order = true then
      min (book_bids.getD (cfg.book_order_top - 1) 0 + 1 / 100000000) ticker_rate
    else ticker_rate
  if 0 < cfg.percent_from_top then
    trunc_num (used_rate - used_rate * cfg.percent_from_top) 8
  else used_rate

/-- `FreqtradeBot.get_high_stake_amount` (freqtradebot.py:328-363).
`cfg_stake_amount`, `max_open_trades` are the configuration entries;
`current_trades` is the count answered by the open-trades query; and
`total_trade_profits`, `trade_fees` are the pair answered by
`get_trade_profits_fees()`.  `trades_left > 0` on integers is
`current_trades < max_open_trades`. -/
def get_high_stake_amount (stake_amount : ℚ) (cfg_stake_amount : ℚ)
    (max_open_trades : ℕ) (current_trades : ℕ)
    (total_trade_profits : ℚ) (trade_fees : ℚ) : ℚ :=
  if current_trades < max_open_trades then
    let initial_balance := cfg_stake_amount * (max_open_trades : ℚ)
    if 0 < total_trade_profits then
      let total_profit_percent :=
        (initial_balance + total_trade_profits) / initial_balance - 1
          - trade_fees * 2
      trunc_num (stake_amount * (1 + trunc_num total_profit_percent 2)) 8
    else stake_amount
  else stake_amount

/-- The high-risk stake rule as claim C9 words it: when profit is
positive and a slot is free, the stake is scaled by one plus the
fee-adjusted profit percentage and truncated to 8 decimal places (no
intermediate truncation of the percentage).  Stated from the claim's
words, for comparison with `get_high_stake_amount`. -/
def get_high_stake_amount_claimed (stake_amount : ℚ) (cfg_stake_amount : ℚ)
    (max_open_trades : ℕ) (current_trades : ℕ)
    (total_trade_profits : ℚ) (trade_fees : ℚ) : ℚ :=
  if current_trades < max_open_trades ∧ 0 < total_trade_profits then
    let initial_balance := cfg_stake_amount * (max_open_trades : ℚ)
    let total_profit_percent :=
      (initial_balance + total_trade_profits) / initial_balance - 1
        - trade_fees * 2
    trunc_num (stake_amount * (1 + total_profit_percent)) 8
  else stake_amount

/-- Sum of the fill amounts accumulated by the loop of
`FreqtradeBot.get_real_amount` (freqtradebot.py:542-549). -/
def fills_amount (fills : List Fill) : ℚ :=
  (fills.map Fill.amount).sum

/-- Sum of the fee costs attributed to the pair's base currency by the
same loop: a fill contributes its fee cost exactly when it carries a
usable fee dict whose currency is a prefix of the trade's pair. -/
def fills_fee_abs (pair : String) (fills : List Fill) : ℚ :=
  (fills.map (fun f =>
    match f.fee with
    | some fe => if startswith pair fe.currency = true then fe.cost else 0
    | none => 0)).sum

/-- The fatal error raised by `get_real_amount` on a fill-sum mismatch
(`OperationalException("Half bought? Amounts don't match")`). -/
inductive ReconError
  | half_bought
  deriving Repr, DecidableEq

/-- `FreqtradeBot.get_real_amount` (freqtradebot.py:518-558).  `fills` is
the list answered by `exchange.get_trades_for_order(trade.open_order_id,
trade.pair, trade.open_date)`, the fill records matched by order
identifier and opening timestamp. -/
def get_real_amount (trade : Trade) (order : Order) (fills : List Fill) :
    Except ReconError ℚ :=
  let order_amount := order.amount
  if trade.fee_open = 0 ∨ order.status = "open" then .ok order_amount
  else
    let from_order : Option ℚ :=
      match order.fee with
      | some fe =>
        if startswith trade.pair fe.currency = true then
          some (order_amount - fe.cost)
        else none
      | none => none
    match from_order with
    | some a => .ok a
    | none =>
      if fills = [] then .ok order_amount
      else
        let amount := fills_amount fills
        let fee_abs := fills_fee_abs trade.pair fills
        if amount ≠ order_amount then .error .half_bought
        else .ok (amount - fee_abs)

/-- `FreqtradeBot.handle_timedout_limit_buy` (freqtradebot.py:653-674).
`exchange.cancel_order` is called unconditionally before the branch (an
external effect, not part of the state).  The result is the handler's
boolean together with `none` when the trade record is deleted, or the
updated trade record. -/
def handle_timedout_limit_buy (trade : Trade) (order : Order) :
    Bool × Option Trade :=
  if order.remaining = order.amount then (true, none)
  else
    let new_amount := order.amount - order.remaining
    (false, some { trade with
        amount := new_amount,
        stake_amount := new_amount * trade.open_rate,
        open_order_id := none })

/-- `FreqtradeBot.execute_sell` (freqtradebot.py:698-752) restricted to
its trade-record mutation: records the sell order id and the requested
close rate (notification and fiat conversion are external effects). -/
def execute_sell (order_id : Nat) (trade : Trade) (limit : ℚ) : Trade :=
  { trade with open_order_id := some order_id,
               close_rate_requested := some limit }

/-- `FreqtradeBot.check_sell` (freqtradebot.py:608-612). -/
def check_sell (cfg : BotConfig) (strat : Strategy) (order_id : Nat)
    (trade : Trade) (sell_rate : ℚ) (now : ℚ) (buy : Bool) (sell : Bool) :
    Bool × Trade :=
  let r := should_sell cfg strat trade sell_rate now buy sell
  if r.1 then (true, execute_sell order_id r.2 sell_rate)
  else (false, r.2)

/-- The `for i in range(orderBook_min, orderBook_max + 1)` loop of
`FreqtradeBot.handle_trade` (freqtradebot.py:588-599), over the explicit
index list.  `asks` is the ask-price column of the order book; level `i`
reads `asks[i - 1]`.  Besides the decision and the threaded trade record,
the result records the trace of `(sell_rate, decision)` pairs at which
`check_sell` was invoked, in order; the loop returns at the first `true`
decision. -/
def handle_trade_book_loop (cfg : BotConfig) (strat : Strategy)
    (order_id : Nat) (asks : List ℚ) (now : ℚ) (buy : Bool) (sell : Bool) :
    List ℕ → ℚ → Trade → Bool × Trade × List (ℚ × Bool)
  | [], _, t => (false, t, [])
  | i :: rest, sell_rate, t =>
    let ob := asks.getD (i - 1) 0
    let sell_rate := if sell_rate < ob then ob else sell_rate
    let r := check_sell cfg strat order_id t sell_rate now buy sell
    if r.1 then (true, r.2, [(sell_rate, true)])
    else
      let rec_result :=
        handle_trade_book_loop cfg strat order_id asks now buy sell
          rest sell_rate r.2
      (rec_result.1, rec_result.2.1, (sell_rate, false) :: rec_result.2.2)

/-- The fatal `ValueError` of `FreqtradeBot.handle_trade` on a closed
trade (freqtradebot.py:565-566). -/
inductive HandleError
  | closed_trade
  deriving Repr, DecidableEq

/-- The answers of the external collaborators consumed by one
`handle_trade` evaluation: ticker bid, the strategy signal pair, the
taker fee, the order-book ask column, the current time and the id the
exchange would assign to a sell order. -/
structure SellEnv where
  ticker_bid : ℚ
  signal_buy : Bool
  signal_sell : Bool
  fee : ℚ
  asks : List ℚ
  now : ℚ
  sell_order_id : Nat
  deriving Repr, DecidableEq

/-- `FreqtradeBot.handle_trade` (freqtradebot.py:560-606).  Returns the
decision, the trade record as mutated along the way, and the trace of
`(sell_rate, decision)` pairs of the `check_sell` invocations. -/
def handle_trade (cfg : BotConfig) (strat : Strategy) (env : SellEnv)
    (trade : Trade) : Except HandleError (Bool × Trade × List (ℚ × Bool)) :=
  if trade.is_open = false then .error .closed_trade
  else
    let sell_rate := env.ticker_bid
    let buy := if cfg.use_sell_signal = true then env.signal_buy else false
    let sell := if cfg.use_sell_signal = true then env.signal_sell else false
    let sell_rate :=
      if cfg.sell_fullfilled_at_roi = true then
        get_roi_rate strat env.fee trade sell_rate env.now
      else sell_rate
    if cfg.ask_use_book_order = true then
      let idxs := List.range' cfg.book_order_min
        (cfg.book_order_max + 1 - cfg.book_order_min)
      .ok (handle_trade_book_loop cfg strat env.sell_order_id env.asks
        env.now buy sell idxs sell_rate trade)
    else
      let r := check_sell cfg strat env.sell_order_id trade sell_rate
        env.now buy sell
      .ok (r.1, r.2, [(sell_rate, r.1)])

/-! Concrete inputs used by the claim instances and witnesses. -/

/-- C1 concrete strategy: the spec's `minimal_roi = {0: 0.10, 30: 0.05,
60: 0.02}` table. -/
def c1_strat : Strategy :=
  { stoploss := -(1/2), minimal_roi := [(0, 1/10), (30, 1/20), (60, 1/50)] }

/-- C1 concrete trade: opened at rate 100 at time 0, stop loss stored at
50; at current rate 106 the profit fraction is 0.06. -/
def c1_trade : Trade :=
  { pair := "ETH/BTC", stake_amount := 1, amount := 1, open_rate := 100,
    open_date := 0, fee_open := 0, stop_loss := some 50,
    initial_stop_loss := some 50, open_order_id := none,
    close_rate_requested := none, is_open := true }

/-- C1 concrete configuration: everything optional disabled. -/
def c1_cfg : BotConfig :=
  { trailing_enabled := false, trailing_positive := none,
    sell_profit_only := false, use_sell_signal := false,
    sell_fullfilled_at_roi := false, ask_use_book_order := false,
    book_order_min := 1, book_order_max := 1 }

/-- C2 concrete configuration: trailing stop enabled (flat mode). -/
def c2_cfg : BotConfig :=
  { trailing_enabled := true, trailing_positive := none,
    sell_profit_only := false, use_sell_signal := false,
    sell_fullfilled_at_roi := false, ask_use_book_order := false,
    book_order_min := 1, book_order_max := 1 }

/-- C2 concrete strategy. -/
def c2_strat : Strategy := { stoploss := -(1/10), minimal_roi := [] }

/-- C2 concrete trade with stored stop loss 50. -/
def c2_trade : Trade :=
  { pair := "ETH/BTC", stake_amount := 1, amount := 1, open_rate := 100,
    open_date := 0, fee_open := 0, stop_loss := some 50,
    initial_stop_loss := some 50, open_order_id := none,
    close_rate_requested := none, is_open := true }

/-- C3 concrete configuration: both experimental sell suppressions
enabled, to exhibit that the stoploss branch wins over them. -/
def c3_cfg : BotConfig :=
  { trailing_enabled := false, trailing_positive := none,
    sell_profit_only := true, use_sell_signal := true,
    sell_fullfilled_at_roi := false, ask_use_book_order := false,
    book_order_min := 1, book_order_max := 1 }

/-- C3 concrete strategy. -/
def c3_strat : Strategy := { stoploss := -(1/2), minimal_roi := [] }

/-- C3 concrete trade: stop loss stored at 50; at rate 40 the trade is
at a loss, so the `sell_profit_only` suppression would apply to any
signal-based sell. -/
def c3_trade : Trade :=
  { pair := "ETH/BTC", stake_amount := 1, amount := 1, open_rate := 100,
    open_date := 0, fee_open := 0, stop_loss := some 50,
    initial_stop_loss := some 50, open_order_id := none,
    close_rate_requested := none, is_open := true }

/-- C4 concrete bid strategy: order-book pricing on, depth index 1, no
top discount, pure-ask balance. -/
def c4_cfg : BidStrategyCfg :=
  { ask_last_balance := 0, use_book_order := true, book_order_top := 1,
    percent_from_top := 0 }

/-- C4 concrete ticker: ask 1 below last 2, so the ticker-derived rate
is 1, lower than the order-book rate. -/
def c4_ticker : Ticker := { bid := 99, ask := 1, last := 2 }

/-- C4 concrete order-book bid column: best bid 3. -/
def c4_bids : List ℚ := [3]

/-- C5 concrete trade: non-zero `fee_open`, pair `AB/CD`. -/
def c5_trade : Trade :=
  { pair := "AB/CD", stake_amount := 1, amount := 10, open_rate := 1,
    open_date := 0, fee_open := 1, stop_loss := none,
    initial_stop_loss := none, open_order_id := some 1,
    close_rate_requested := none, is_open := true }

/-- C5 concrete closed order: amount 10 with embedded fee of 0.01 in the
pair's base currency `AB`. -/
def c5_order : Order :=
  { amount := 10, remaining := 0, status := "closed",
    fee := some { currency := "AB", cost := 1/100 } }

/-- C6 concrete trade. -/
def c6_trade : Trade :=
  { pair := "AB/CD", stake_amount := 1, amount := 10, open_rate := 1,
    open_date := 0, fee_open := 1, stop_loss := none,
    initial_stop_loss := none, open_order_id := some 1,
    close_rate_requested := none, is_open := true }

/-- C6 concrete closed order without usable embedded fee data. -/
def c6_order : Order :=
  { amount := 10, remaining := 0, status := "closed", fee := none }

/-- C6 concrete fills: a single fill of 5, disagreeing with the order's
nominal amount 10. -/
def c6_fills : List Fill := [{ amount := 5, fee := none }]

/-- C7 concrete open trade with an outstanding buy order. -/
def c7_trade : Trade :=
  { pair := "ETH/BTC", stake_amount := 10, amount := 5, open_rate := 2,
    open_date := 0, fee_open := 0, stop_loss := none,
    initial_stop_loss := none, open_order_id := some 1,
    close_rate_requested := none, is_open := true }

/-- C7 concrete timed-out buy order with zero fill. -/
def c7_order_full : Order :=
  { amount := 10, remaining := 10, status := "open", fee := none }

/-- C8 concrete closed trade. -/
def c8_trade : Trade :=
  { pair := "ETH/BTC", stake_amount := 1, amount := 1, open_rate := 100,
    open_date := 0, fee_open := 0, stop_loss := some 50,
    initial_stop_loss := some 50, open_order_id := none,
    close_rate_requested := none, is_open := false }

/-- C8 concrete environment. -/
def c8_env : SellEnv :=
  { ticker_bid := 99, signal_buy := false, signal_sell := false, fee := 0,
    asks := [100, 101], now := 60, sell_order_id := 7 }

/-- C8 concrete configuration. -/
def c8_cfg : BotConfig :=
  { trailing_enabled := false, trailing_positive := none,
    sell_profit_only := false, use_sell_signal := false,
    sell_fullfilled_at_roi := false, ask_use_book_order := false,
    book_order_min := 1, book_order_max := 1 }

/-- C8 concrete strategy. -/
def c8_strat : Strategy := { stoploss := -(1/2), minimal_roi := [] }

/-- C10 concrete configuration: order-book selling over ask levels 1-2. -/
def c10_cfg : BotConfig :=
  { trailing_enabled := false, trailing_positive := none,
    sell_profit_only := false, use_sell_signal := false,
    sell_fullfilled_at_roi := false, ask_use_book_order := true,
    book_order_min := 1, book_order_max := 2 }

/-- C10 concrete strategy: empty ROI table, so no level triggers. -/
def c10_strat : Strategy := { stoploss := -(1/2), minimal_roi := [] }

/-- C10 concrete open trade with a stored stop loss far below the
scanned rates. -/
def c10_trade : Trade :=
  { pair := "ETH/BTC", stake_amount := 1, amount := 1, open_rate := 100,
    open_date := 0, fee_open := 0, stop_loss := some 1,
    initial_stop_loss := some 1, open_order_id := none,
    close_rate_requested := none, is_open := true }

/-- C10 concrete environment: ticker bid 99, ask levels 100 and 101
(the spec's §8 order-book example). -/
def c10_env : SellEnv :=
  { ticker_bid := 99, signal_buy := false, signal_sell := false, fee := 0,
    asks := [100, 101], now := 60, sell_order_id := 7 }

/-! Helper lemmas. -/

/-- The trade record returned by `should_sell` is exactly the one
returned by `min_roi_reached`: the later branches do not mutate it. -/
theorem should_sell_snd (cfg : BotConfig) (strat : Strategy) (trade : Trade)
    (rate date : ℚ) (buy sell : Bool) :
    (should_sell cfg strat trade rate date buy sell).2 =
      (min_roi_reached cfg strat trade rate date).2 := by
  simp only [should_sell]
  split
  · rfl
  · split
    · rfl
    · split <;> rfl

/-- `adjust_stop_loss` never lowers an already-stored stop loss. -/
theorem adjust_stop_loss_mono (t : Trade) (rate v s : ℚ)
    (hs : t.stop_loss = some s) :
    ∃ s2, (adjust_stop_loss t rate v).stop_loss = some s2 ∧ s ≤ s2 := by
  simp only [adjust_stop_loss, hs]
  by_cases h : s < rate * (1 + v)
  · exact ⟨rate * (1 + v), by simp [h], le_of_lt h⟩
  · exact ⟨s, by simp [h, hs], le_refl s⟩

/-! Claim theorems. -/

/-- C1: for every trade with a stored stop loss that is not hit, the ROI
sell decision of `min_roi_reached` is the walk of the `minimal_roi`
table in its defined order, where an entry with elapsed minutes ≤ its
duration decides `false` immediately, an entry whose required profit is
exceeded decides `true`, and exhaustion decides `false`; and with
`minimal_roi = {0: 0.10, 30: 0.05, 60: 0.02}`, 45 minutes elapsed and
profit 0.06 the decision is `true`. -/
theorem c1_roi_table_walk (cfg : BotConfig) (strat : Strategy)
    (trade : Trade) (rate time s : ℚ)
    (hs : trade.stop_loss = some s) (hlt : s < rate) :
    (min_roi_reached cfg strat trade rate time).1 =
      min_roi_loop strat.minimal_roi ((time - trade.open_date) / 60)
        (calc_profit_percent trade rate) ∧
    (∀ td p, min_roi_loop [] td p = false) ∧
    (∀ d th rest td p, td ≤ d → min_roi_loop ((d, th) :: rest) td p = false) ∧
    (∀ d th rest td p, ¬ td ≤ d → th < p →
        min_roi_loop ((d, th) :: rest) td p = true) ∧
    (∀ d th rest td p, ¬ td ≤ d → ¬ th < p →
        min_roi_loop ((d, th) :: rest) td p = min_roi_loop rest td p) ∧
    (min_roi_reached c1_cfg c1_strat c1_trade 106 2700).1 = true := by
  refine ⟨?_, ?_, ?_, ?_, ?_, ?_⟩
  · simp [min_roi_reached, hs, not_le.mpr hlt]
  · intro td p
    rfl
  · intro d th rest td p h
    simp [min_roi_loop, h]
  · intro d th rest td p h1 h2
    simp [min_roi_loop, h1, h2]
  · intro d th rest td p h1 h2
    simp [min_roi_loop, h1, h2]
  · norm_num [min_roi_reached, min_roi_loop, calc_profit_percent,
      c1_cfg, c1_strat, c1_trade]

/-- C1 witness: the concrete table instance evaluated through the
theorem. -/
theorem c1_witness :
    (min_roi_reached c1_cfg c1_strat c1_trade 106 2700).1 = true :=
  (c1_roi_table_walk c1_cfg c1_strat c1_trade 106 2700 50 rfl
    (by decide)).2.2.2.2.2

/-- C2: with trailing stop enabled, a stored stop loss is never lowered
by a sell-path evaluation: the trade record coming out of `should_sell`
carries a stop loss at least as high as the stored one. -/
theorem c2_trailing_stop_monotone (cfg : BotConfig) (strat : Strategy)
    (trade : Trade) (rate date : ℚ) (buy sell : Bool) (s : ℚ)
    (htrail : cfg.trailing_enabled = true) (hs : trade.stop_loss = some s) :
    ∃ s2, ((should_sell cfg strat trade rate date buy sell).2).stop_loss
        = some s2 ∧ s ≤ s2 := by
  rw [should_sell_snd]
  have h0 : (trade.stop_loss = none) = False := by simp [hs]
  simp only [min_roi_reached, h0, if_false]
  rw [if_pos htrail]
  split
  · exact ⟨s, by simp [hs], le_refl s⟩
  · exact adjust_stop_loss_mono trade rate _ s hs

/-- C2 witness: concrete trailing-stop evaluation through the theorem. -/
theorem c2_witness :
    ∃ s2, ((should_sell c2_cfg c2_strat c2_trade 106 2700
        false false).2).stop_loss = some s2 ∧ 50 ≤ s2 :=
  c2_trailing_stop_monotone c2_cfg c2_strat c2_trade 106 2700 false false
    50 rfl rfl

/-- C3: whenever the current rate is at or below the stored stop loss,
`should_sell` answers `true`, for every configuration and signal pair;
in particular the `sell_profit_only` suppression and the sell-signal
check, which are evaluated afterwards, cannot override it. -/
theorem c3_stoploss_hit_always_sells (cfg : BotConfig) (strat : Strategy)
    (trade : Trade) (rate date : ℚ) (buy sell : Bool) (s : ℚ)
    (hs : trade.stop_loss = some s) (hr : rate ≤ s) :
    (should_sell cfg strat trade rate date buy sell).1 = true := by
  simp [should_sell, min_roi_reached, hs, hr]

/-- C3 witness: a losing trade with both suppressions enabled still
sells on the stoploss hit. -/
theorem c3_witness :
    (should_sell c3_cfg c3_strat c3_trade 40 2700 false false).1 = true :=
  c3_stoploss_hit_always_sells c3_cfg c3_strat c3_trade 40 2700 false false
    50 rfl (by decide)

/-- C4: at a concrete input where the ticker-derived rate (1) is lower
than the order-book rate (3 + 1/100000000), `get_target_bid` as
implemented returns the order-book rate, while the bid rule as the spec
states it (use the lower of the two) returns the ticker rate: the
conditional ticker-rate assignment at freqtradebot.py:313-315 is dead,
being unconditionally overwritten at line 316. -/
theorem c4_book_branch_ignores_lower_ticker_rate :
    get_target_bid c4_cfg c4_ticker c4_bids = 3 + 1/100000000 ∧
    get_target_bid_claimed c4_cfg c4_ticker c4_bids = 1 ∧
    get_target_bid c4_cfg c4_ticker c4_bids ≠
      get_target_bid_claimed c4_cfg c4_ticker c4_bids := by
  refine ⟨?_, ?_, ?_⟩ <;>
    norm_num [get_target_bid, get_target_bid_claimed, c4_cfg, c4_ticker,
      c4_bids, min_def, List.getD]

/-- C5: for a trade with non-zero `fee_open` and a non-open order whose
embedded fee data names a currency that the trade's pair starts with,
the reconciled real amount is the order's nominal amount minus the fee
cost. -/
theorem c5_embedded_fee_applied (trade : Trade) (order : Order)
    (fills : List Fill) (fe : FeeInfo)
    (h1 : trade.fee_open ≠ 0) (h2 : order.status ≠ "open")
    (h3 : order.fee = some fe)
    (h4 : startswith trade.pair fe.currency = true) :
    get_real_amount trade order fills = .ok (order.amount - fe.cost) := by
  simp [get_real_amount, h1, h2, h3, h4]

/-- C5 witness: order amount 10, fee cost 0.01 in the base currency,
real amount 10 - 0.01 = 9.99. -/
theorem c5_witness :
    get_real_amount c5_trade c5_order [] = .ok (10 - 1/100) :=
  c5_embedded_fee_applied c5_trade c5_order []
    { currency := "AB", cost := 1/100 }
    (by decide) (by decide) rfl (by decide)

/-- C6: for a trade with non-zero `fee_open` and a non-open order
without usable embedded fee data, reconciliation falls back to the fill
records: with non-empty fills, a fill-amount sum that differs from the
order's nominal amount raises the fatal reconciliation error, and a
matching sum yields the summed amount minus the base-currency fee
costs. -/
theorem c6_fill_fallback (trade : Trade) (order : Order)
    (fills : List Fill)
    (h1 : trade.fee_open ≠ 0) (h2 : order.status ≠ "open")
    (h3 : ∀ fe, order.fee = some fe →
        startswith trade.pair fe.currency = false)
    (h4 : fills ≠ []) :
    (fills_amount fills ≠ order.amount →
        get_real_amount trade order fills = .error .half_bought) ∧
    (fills_amount fills = order.amount →
        get_real_amount trade order fills =
          .ok (fills_amount fills - fills_fee_abs trade.pair fills)) := by
  cases hfe : order.fee with
  | none =>
    constructor
    · intro hne
      simp [get_real_amount, h1, h2, hfe, h4, hne]
    · intro heq
      simp [get_real_amount, h1, h2, hfe, h4, heq]
  | some fe =>
    have hp := h3 fe hfe
    constructor
    · intro hne
      simp [get_real_amount, h1, h2, hfe, hp, h4, hne]
    · intro heq
      simp [get_real_amount, h1, h2, hfe, hp, h4, heq]

/-- C6 witness: a single fill of 5 against a nominal order amount of 10
raises the fatal reconciliation error. -/
theorem c6_witness :
    get_real_amount c6_trade c6_order c6_fills = .error .half_bought :=
  (c6_fill_fallback c6_trade c6_order c6_fills (by decide) (by decide)
    (fun _ h => Option.noConfusion h) (by decide)).1
    (by simp [c6_fills, c6_order, fills_amount])

/-- C7: on a timed-out buy order, a zero fill (remaining = amount)
deletes the trade record and returns `true`; a partial fill shrinks the
trade's amount to the filled portion, sets the stake to the new amount
times the open rate, clears the order reference, leaves `is_open` true
and returns `false`. -/
theorem c7_buy_timeout (trade : Trade) (order : Order)
    (hopen : trade.is_open = true) :
    (order.remaining = order.amount →
        handle_timedout_limit_buy trade order = (true, none)) ∧
    (order.remaining < order.amount →
        ∃ t2, handle_timedout_limit_buy trade order = (false, some t2) ∧
          t2.amount = order.amount - order.remaining ∧
          t2.stake_amount = t2.amount * trade.open_rate ∧
          t2.open_order_id = none ∧
          t2.is_open = true) := by
  constructor
  · intro h
    simp [handle_timedout_limit_buy, h]
  · intro h
    refine ⟨{ trade with
        amount := order.amount - order.remaining,
        stake_amount := (order.amount - order.remaining) * trade.open_rate,
        open_order_id := none }, ?_, rfl, rfl, rfl, hopen⟩
    simp [handle_timedout_limit_buy, ne_of_lt h]

/-- C7 witness: a fully unfilled timed-out buy order deletes the trade
record. -/
theorem c7_witness :
    handle_timedout_limit_buy c7_trade c7_order_full = (true, none) :=
  (c7_buy_timeout c7_trade c7_order_full rfl).1 rfl

/-- C8: invoking the sell path on a trade that is not open yields the
fatal contract error, for every environment, before any trade mutation
or order placement. -/
theorem c8_closed_trade_fatal (cfg : BotConfig) (strat : Strategy)
    (env : SellEnv) (trade : Trade) (h : trade.is_open = false) :
    handle_trade cfg strat env trade = .error .closed_trade := by
  simp [handle_trade, h]

/-- C8 witness: the concrete closed trade. -/
theorem c8_witness :
    handle_trade c8_cfg c8_strat c8_env c8_trade = .error .closed_trade :=
  c8_closed_trade_fatal c8_cfg c8_strat c8_env c8_trade rfl

/-- C9 counterexample: with stake 1, one free slot and closed profit
0.159 (fees 0), the code scales by the profit percentage truncated to
two decimal places first (result 1.15), while the claim's formula (no
intermediate truncation) gives 1.159. -/
theorem c9_counterexample :
    get_high_stake_amount 1 1 1 0 (159/1000) 0 = 23/20 ∧
    get_high_stake_amount_claimed 1 1 1 0 (159/1000) 0 = 1159/1000 ∧
    get_high_stake_amount 1 1 1 0 (159/1000) 0 ≠
      get_high_stake_amount_claimed 1 1 1 0 (159/1000) 0 := by
  refine ⟨?_, ?_, ?_⟩ <;>
    norm_num [get_high_stake_amount, get_high_stake_amount_claimed,
      trunc_num]

/-- C9 (amended): the stake is returned unchanged when closed-trade
profit is not strictly positive or no trade slot is free; when profit is
strictly positive and a slot is free, the result is the stake times one
plus the fee-adjusted profit percentage, where that percentage is first
truncated to 2 decimal places and the product is truncated to 8 decimal
places. -/
theorem c9_high_stake_amended (stake cfg_stake : ℚ) (max_t current : ℕ)
    (profits fees : ℚ) :
    (profits ≤ 0 ∨ max_t ≤ current →
        get_high_stake_amount stake cfg_stake max_t current profits fees
          = stake) ∧
    (0 < profits → current < max_t →
        get_high_stake_amount stake cfg_stake max_t current profits fees
          = trunc_num (stake * (1 + trunc_num
              ((cfg_stake * (max_t : ℚ) + profits) / (cfg_stake * (max_t : ℚ))
                - 1 - fees * 2) 2)) 8) := by
  constructor
  · rintro (hp | hm)
    · simp [get_high_stake_amount, not_lt.mpr hp]
    · simp [get_high_stake_amount, not_lt.mpr hm]
  · intro hp hm
    simp [get_high_stake_amount, hp, hm]

/-- C9 witness: concrete scaled-stake evaluation through the amended
theorem. -/
theorem c9_witness :
    get_high_stake_amount 1 1 1 0 2 0 =
      trunc_num (1 * (1 + trunc_num
        ((1 * ((1:ℕ):ℚ) + 2) / (1 * ((1:ℕ):ℚ)) - 1 - 0 * 2) 2)) 8 :=
  (c9_high_stake_amended 1 1 1 0 2 0).2 (by decide) (by decide)

/-! C10 helper lemmas about the order-book scan loop. -/

/-- The accumulator update of the scan loop is a maximum. -/
theorem ite_lt_max (a b : ℚ) : (if a < b then b else a) = max a b := by
  split
  · exact (max_eq_right (le_of_lt (by assumption))).symm
  · exact (max_eq_left (le_of_not_lt (by assumption))).symm

/-- `List.take` on `List.range'`. -/
theorem take_of_range (s : ℕ) :
    ∀ (n m : ℕ), (List.range' s n).take m = List.range' s (min m n) := by
  intro n
  induction n generalizing s with
  | zero => intro m; simp
  | succ k ih =>
    intro m
    cases m with
    | zero => simp
    | succ mm =>
      simp [List.range'_succ, List.take_succ_cons, ih, Nat.succ_min_succ]

/-- The scan trace is never longer than the index list. -/
theorem book_loop_length_le (cfg : BotConfig) (strat : Strategy)
    (oid : Nat) (asks : List ℚ) (now : ℚ) (buy sell : Bool)
    (idxs : List ℕ) :
    ∀ (acc : ℚ) (t : Trade),
      ((handle_trade_book_loop cfg strat oid asks now buy sell
          idxs acc t).2.2).length ≤ idxs.length := by
  induction idxs with
  | nil =>
    intro acc t
    simp [handle_trade_book_loop]
  | cons i rest ih =>
    intro acc t
    simp only [handle_trade_book_loop, ite_lt_max]
    split
    · simp
    · simpa using ih _ _

/-- When no level triggers a sell, the scan visits every index. -/
theorem book_loop_length_full (cfg : BotConfig) (strat : Strategy)
    (oid : Nat) (asks : List ℚ) (now : ℚ) (buy sell : Bool)
    (idxs : List ℕ) :
    ∀ (acc : ℚ) (t : Trade),
      (handle_trade_book_loop cfg strat oid asks now buy sell
          idxs acc t).1 = false →
      ((handle_trade_book_loop cfg strat oid asks now buy sell
          idxs acc t).2.2).length = idxs.length := by
  induction idxs with
  | nil =>
    intro acc t _
    simp [handle_trade_book_loop]
  | cons i rest ih =>
    intro acc t hres
    simp only [handle_trade_book_loop, ite_lt_max] at hres ⊢
    split at hres
    · simp at hres
    · rename_i hc
      rw [if_neg hc]
      simpa using ih _ _ hres

/-- Rate formula of the scan: the j-th evaluated rate is the maximum of
the starting rate and the ask prices at the first j+1 scanned levels. -/
theorem book_loop_rate (cfg : BotConfig) (strat : Strategy)
    (oid : Nat) (asks : List ℚ) (now : ℚ) (buy sell : Bool)
    (idxs : List ℕ) :
    ∀ (acc : ℚ) (t : Trade) (j : ℕ),
      j < ((handle_trade_book_loop cfg strat oid asks now buy sell
          idxs acc t).2.2).length →
      (((handle_trade_book_loop cfg strat oid asks now buy sell
          idxs acc t).2.2).getD j (0, false)).1 =
        List.foldl max acc
          ((idxs.take (j+1)).map (fun k => asks.getD (k-1) 0)) := by
  induction idxs with
  | nil =>
    intro acc t j hj
    simp [handle_trade_book_loop] at hj
  | cons i rest ih =>
    intro acc t j hj
    simp only [handle_trade_book_loop, ite_lt_max] at hj ⊢
    split
    · rename_i hc
      rw [if_pos hc] at hj
      simp only [List.length_cons, List.length_nil] at hj
      interval_cases j
      simp
    · rename_i hc
      rw [if_neg hc] at hj
      cases j with
      | zero => simp
      | succ jj =>
        simp only [List.length_cons] at hj
        have hjj : jj < ((handle_trade_book_loop cfg strat oid asks now
            buy sell rest (max acc (asks.getD (i-1) 0))
            (check_sell cfg strat oid t (max acc (asks.getD (i-1) 0))
              now buy sell).2).2.2).length := by omega
        simp only [List.getD_cons_succ, List.take_succ_cons, List.map_cons,
          List.foldl_cons]
        exact ih _ _ jj hjj

/-- Every evaluated rate is at least the starting rate. -/
theorem book_loop_rate_lb (cfg : BotConfig) (strat : Strategy)
    (oid : Nat) (asks : List ℚ) (now : ℚ) (buy sell : Bool)
    (idxs : List ℕ) :
    ∀ (acc : ℚ) (t : Trade) (j : ℕ),
      j < ((handle_trade_book_loop cfg strat oid asks now buy sell
          idxs acc t).2.2).length →
      acc ≤ (((handle_trade_book_loop cfg strat oid asks now buy sell
          idxs acc t).2.2).getD j (0, false)).1 := by
  induction idxs with
  | nil =>
    intro acc t j hj
    simp [handle_trade_book_loop] at hj
  | cons i rest ih =>
    intro acc t j hj
    simp only [handle_trade_book_loop, ite_lt_max] at hj ⊢
    split
    · rename_i hc
      rw [if_pos hc] at hj
      simp only [List.length_cons, List.length_nil] at hj
      interval_cases j
      simp
    · rename_i hc
      rw [if_neg hc] at hj
      cases j with
      | zero => simp
      | succ jj =>
        simp only [List.length_cons] at hj
        have hjj : jj < ((handle_trade_book_loop cfg strat oid asks now
            buy sell rest (max acc (asks.getD (i-1) 0))
            (check_sell cfg strat oid t (max acc (asks.getD (i-1) 0))
              now buy sell).2).2.2).length := by omega
        simp only [List.getD_cons_succ]
        exact le_trans (le_max_left acc (asks.getD (i-1) 0))
          (ih _ _ jj hjj)

/-- The evaluated rates form a non-decreasing chain. -/
theorem book_loop_rate_mono (cfg : BotConfig) (strat : Strategy)
    (oid : Nat) (asks : List ℚ) (now : ℚ) (buy sell : Bool)
    (idxs : List ℕ) :
    ∀ (acc : ℚ) (t : Trade) (j k : ℕ), j ≤ k →
      k < ((handle_trade_book_loop cfg strat oid asks now buy sell
          idxs acc t).2.2).length →
      (((handle_trade_book_loop cfg strat oid asks now buy sell
          idxs acc t).2.2).getD j (0, false)).1 ≤
      (((handle_trade_book_loop cfg strat oid asks now buy sell
          idxs acc t).2.2).getD k (0, false)).1 := by
  induction idxs with
  | nil =>
    intro acc t j k hjk hk
    simp [handle_trade_book_loop] at hk
  | cons i rest ih =>
    intro acc t j k hjk hk
    simp only [handle_trade_book_loop, ite_lt_max] at hk ⊢
    split
    · rename_i hc
      rw [if_pos hc] at hk
      simp only [List.length_cons, List.length_nil] at hk
      interval_cases k
      interval_cases j
      exact le_refl _
    · rename_i hc
      rw [if_neg hc] at hk
      cases k with
      | zero =>
        interval_cases j
        exact le_refl _
      | succ kk =>
        simp only [List.length_cons] at hk
        have hkk : kk < ((handle_trade_book_loop cfg strat oid asks now
            buy sell rest (max acc (asks.getD (i-1) 0))
            (check_sell cfg strat oid t (max acc (asks.getD (i-1) 0))
              now buy sell).2).2.2).length := by omega
        cases j with
        | zero =>
          simp only [List.getD_cons_zero, List.getD_cons_succ]
          exact book_loop_rate_lb cfg strat oid asks now buy sell rest
            _ _ kk hkk
        | succ jj =>
          simp only [List.getD_cons_succ]
          exact ih _ _ jj kk (by omega) hkk

/-- Every evaluation before the last one decided against selling. -/
theorem book_loop_pre_last_false (cfg : BotConfig) (strat : Strategy)
    (oid : Nat) (asks : List ℚ) (now : ℚ) (buy sell : Bool)
    (idxs : List ℕ) :
    ∀ (acc : ℚ) (t : Trade) (j : ℕ),
      j + 1 < ((handle_trade_book_loop cfg strat oid asks now buy sell
          idxs acc t).2.2).length →
      (((handle_trade_book_loop cfg strat oid asks now buy sell
          idxs acc t).2.2).getD j (0, false)).2 = false := by
  induction idxs with
  | nil =>
    intro acc t j hj
    simp [handle_trade_book_loop] at hj
  | cons i rest ih =>
    intro acc t j hj
    simp only [handle_trade_book_loop, ite_lt_max] at hj ⊢
    split
    · rename_i hc
      rw [if_pos hc] at hj
      simp only [List.length_cons, List.length_nil] at hj
      omega
    · rename_i hc
      rw [if_neg hc] at hj
      cases j with
      | zero => simp
      | succ jj =>
        simp only [List.length_cons] at hj
        simp only [List.getD_cons_succ]
        exact ih _ _ jj (by omega)

/-- The scan answers `true` exactly when its trace is non-empty and its
last recorded decision is a sell. -/
theorem book_loop_last (cfg : BotConfig) (strat : Strategy)
    (oid : Nat) (asks : List ℚ) (now : ℚ) (buy sell : Bool)
    (idxs : List ℕ) :
    ∀ (acc : ℚ) (t : Trade),
      (handle_trade_book_loop cfg strat oid asks now buy sell
          idxs acc t).1 = true ↔
      ∃ r, ((handle_trade_book_loop cfg strat oid asks now buy sell
          idxs acc t).2.2).getLast? = some (r, true) := by
  induction idxs with
  | nil =>
    intro acc t
    simp [handle_trade_book_loop]
  | cons i rest ih =>
    intro acc t
    simp only [handle_trade_book_loop, ite_lt_max]
    split
    · rename_i hc
      simp
    · rename_i hc
      cases htr : ((handle_trade_book_loop cfg strat oid asks now buy sell
          rest (max acc (asks.getD (i-1) 0))
          (check_sell cfg strat oid t (max acc (asks.getD (i-1) 0))
            now buy sell).2).2.2) with
      | nil =>
        have h0 := ih (max acc (asks.getD (i-1) 0))
          (check_sell cfg strat oid t (max acc (asks.getD (i-1) 0))
            now buy sell).2
        rw [htr] at h0
        simp only [List.getLast?_nil] at h0
        simp only [htr]
        constructor
        · intro h
          exact absurd (h0.mp h) (by simp)
        · intro h
          obtain ⟨r, hr⟩ := h
          simp at hr
      | cons x xs =>
        have h0 := ih (max acc (asks.getD (i-1) 0))
          (check_sell cfg strat oid t (max acc (asks.getD (i-1) 0))
            now buy sell).2
        rw [htr] at h0
        simp only [htr, List.getLast?_cons_cons]
        exact h0

/-- C10: during order-book-aware exit evaluation (book selling on, the
ROI-rate override off), the scan evaluates the sell decision at the j-th
scanned level at exactly the maximum of the ticker bid and the ask
prices of the levels from `book_order_min` up to that level; the
evaluated rates never drop below the ticker bid and are monotonically
non-decreasing; every evaluation before the last decides against
selling, the scan answers `true` exactly when its last evaluation
decides to sell, and when no level triggers the scan visits every
configured level. -/
theorem c10_book_scan_monotone (cfg : BotConfig) (strat : Strategy)
    (env : SellEnv) (trade : Trade)
    (hopen : trade.is_open = true)
    (hbook : cfg.ask_use_book_order = true)
    (hroi : cfg.sell_fullfilled_at_roi = false)
    (hlo : 1 ≤ cfg.book_order_min)
    (hhi : cfg.book_order_max ≤ env.asks.length) :
    ∃ res t2 trace,
      handle_trade cfg strat env trade = .ok (res, t2, trace) ∧
      (∀ j, j < trace.length →
        (trace.getD j (0, false)).1 =
          List.foldl max env.ticker_bid
            ((List.range' cfg.book_order_min (j+1)).map
              (fun k => env.asks.getD (k-1) 0))) ∧
      (∀ j, j < trace.length →
        env.ticker_bid ≤ (trace.getD j (0, false)).1) ∧
      (∀ j k, j ≤ k → k < trace.length →
        (trace.getD j (0, false)).1 ≤ (trace.getD k (0, false)).1) ∧
      (∀ j, j + 1 < trace.length → (trace.getD j (0, false)).2 = false) ∧
      (res = true ↔ ∃ r, trace.getLast? = some (r, true)) ∧
      (res = false →
        trace.length = cfg.book_order_max + 1 - cfg.book_order_min) := by
  have hht : handle_trade cfg strat env trade = .ok
      (handle_trade_book_loop cfg strat env.sell_order_id env.asks env.now
        (cfg.use_sell_signal && env.signal_buy)
        (cfg.use_sell_signal && env.signal_sell)
        (List.range' cfg.book_order_min
          (cfg.book_order_max + 1 - cfg.book_order_min))
        env.ticker_bid trade) := by
    simp [handle_trade, hopen, hbook, hroi]
  have hlen := book_loop_length_le cfg strat env.sell_order_id env.asks
    env.now (cfg.use_sell_signal && env.signal_buy)
    (cfg.use_sell_signal && env.signal_sell)
    (List.range' cfg.book_order_min
      (cfg.book_order_max + 1 - cfg.book_order_min))
    env.ticker_bid trade
  rw [List.length_range'] at hlen
  refine ⟨_, _, _, hht, ?_, ?_, ?_, ?_, ?_, ?_⟩
  · intro j hj
    rw [book_loop_rate cfg strat env.sell_order_id env.asks env.now
      (cfg.use_sell_signal && env.signal_buy)
      (cfg.use_sell_signal && env.signal_sell)
      _ _ _ j hj, take_of_range, min_eq_left (le_trans hj hlen)]
  · intro j hj
    exact book_loop_rate_lb cfg strat env.sell_order_id env.asks env.now
      (cfg.use_sell_signal && env.signal_buy)
      (cfg.use_sell_signal && env.signal_sell) _ _ _ j hj
  · intro j k hjk hk
    exact book_loop_rate_mono cfg strat env.sell_order_id env.asks env.now
      (cfg.use_sell_signal && env.signal_buy)
      (cfg.use_sell_signal && env.signal_sell) _ _ _ j k hjk hk
  · intro j hj
    exact book_loop_pre_last_false cfg strat env.sell_order_id env.asks
      env.now (cfg.use_sell_signal && env.signal_buy)
      (cfg.use_sell_signal && env.signal_sell) _ _ _ j hj
  · exact book_loop_last cfg strat env.sell_order_id env.asks env.now
      (cfg.use_sell_signal && env.signal_buy)
      (cfg.use_sell_signal && env.signal_sell) _ _ _
  · intro hres
    rw [book_loop_length_full cfg strat env.sell_order_id env.asks env.now
      (cfg.use_sell_signal && env.signal_buy)
      (cfg.use_sell_signal && env.signal_sell) _ _ _ hres,
      List.length_range']

/-- C10 witness: the spec's §8 example, asks `[100, 101]`, bid 99,
levels 1-2, with no level triggering a sell. -/
theorem c10_witness :
    ∃ res t2 trace,
      handle_trade c10_cfg c10_strat c10_env c10_trade =
        .ok (res, t2, trace) ∧
      (∀ j, j < trace.length →
        (trace.getD j (0, false)).1 =
          List.foldl max c10_env.ticker_bid
            ((List.range' c10_cfg.book_order_min (j+1)).map
              (fun k => c10_env.asks.getD (k-1) 0))) ∧
      (∀ j, j < trace.length →
        c10_env.ticker_bid ≤ (trace.getD j (0, false)).1) ∧
      (∀ j k, j ≤ k → k < trace.length →
        (trace.getD j (0, false)).1 ≤ (trace.getD k (0, false)).1) ∧
      (∀ j, j + 1 < trace.length → (trace.getD j (0, false)).2 = false) ∧
      (res = true ↔ ∃ r, trace.getLast? = some (r, true)) ∧
      (res = false →
        trace.length = c10_cfg.book_order_max + 1 - c10_cfg.book_order_min) :=
  c10_book_scan_monotone c10_cfg c10_strat c10_env c10_trade
    rfl rfl rfl (by decide) (by decide)

end Freqtrade
